import Mathlib

/-!
Shallow embedding of the MIDI relay core (src/midi.js) in Lean 4.

Modelling conventions:
* JavaScript numbers that are always integral in the modelled paths are
  `Int` (or `Nat` for raw received bytes).  `NaN` and `undefined` are
  modelled by `Option`: `none` stands for the absent/NaN value at the
  places the source can produce one.
* Dynamic trigger/request fields that may hold either a number or a
  string (for instance the wildcard marker "*") are the sum type `Value`.
* JavaScript truthiness of `||` and `??` is modelled by explicit helpers
  (`jsOrNum`, `jsOrStr`, `Option.orElse`): `0`, `""`, `undefined` are
  falsy for `||`; only `undefined`/`null` trigger `??`.
* `parseInt` is modelled with its prefix-parsing semantics (skip
  whitespace, optional sign, optional 0x prefix in the radix-free form,
  then the longest digit prefix; no digits gives NaN = `none`).
-/

/-- Model of JavaScript `toLowerCase()` on the ASCII strings the code
compares (command and action names): lower-case every character. -/
def lowerStr (s : String) : String :=
  ⟨s.data.map Char.toLower⟩

/-- A dynamic JavaScript value restricted to the shapes the modelled code
paths actually receive: an (integral) number or a string. -/
inductive Value where
  | num (n : Int)
  | str (s : String)
deriving DecidableEq, Repr

/-- JavaScript logical-or fallback on a possibly-absent number:
`v || d` yields `d` when `v` is `undefined` or `0` (falsy), else `v`. -/
def jsOrNum (v : Option Int) (d : Int) : Int :=
  match v with
  | some x => if x = 0 then d else x
  | none => d

/-- JavaScript logical-or fallback on a possibly-absent string:
`v || w` yields `w` when `v` is `undefined` or the empty string. -/
def jsOrStr (v : Option String) (w : Option String) : Option String :=
  match v with
  | some s => if s = "" then w else some s
  | none => w

/-- JavaScript truthiness of a possibly-absent string (used for
`if (cue)`-style guards): truthy iff present and non-empty. -/
def truthyStr (v : Option String) : Bool :=
  match v with
  | some s => s ≠ ""
  | none => false

/-- Numeric value of a list of decimal digit characters. -/
def digitsVal (l : List Char) : Nat :=
  l.foldl (fun acc c => acc * 10 + (c.toNat - '0'.toNat)) 0

/-- Numeric value of a list of hexadecimal digit characters. -/
def hexVal (l : List Char) : Nat :=
  l.foldl (fun acc c =>
    acc * 16 +
      (if c.isDigit then c.toNat - '0'.toNat
       else if 'a' ≤ c ∧ c ≤ 'f' then c.toNat - 'a'.toNat + 10
       else c.toNat - 'A'.toNat + 10)) 0

/-- Whitespace skipped by JavaScript `parseInt`. -/
def isJsWS (c : Char) : Bool :=
  c = ' ' ∨ c = '\t' ∨ c = '\n' ∨ c = '\r'

/-- Hexadecimal digit predicate. -/
def isHexDigit (c : Char) : Bool :=
  c.isDigit ∨ ('a' ≤ c ∧ c ≤ 'f') ∨ ('A' ≤ c ∧ c ≤ 'F')

/-- Sign parsing shared by the `parseInt` models: strips one leading
sign character and reports the sign. -/
def parseSign (l : List Char) : Int × List Char :=
  match l with
  | '-' :: t => (-1, t)
  | '+' :: t => (1, t)
  | _ => (1, l)

/-- Model of JavaScript `parseInt(s, 10)`: skip whitespace, optional
sign, then the longest run of decimal digits; `none` models `NaN`. -/
def parseIntDec (s : String) : Option Int :=
  let l := s.data.dropWhile isJsWS
  let p := parseSign l
  let ds := p.2.takeWhile Char.isDigit
  if ds.isEmpty then none else some (p.1 * (digitsVal ds : Int))

/-- Model of radix-free JavaScript `parseInt(s)`: like `parseIntDec`
but a `0x`/`0X` prefix switches to hexadecimal. -/
def parseIntJS (s : String) : Option Int :=
  let l := s.data.dropWhile isJsWS
  let p := parseSign l
  match p.2 with
  | '0' :: 'x' :: r =>
      let ds := r.takeWhile isHexDigit
      if ds.isEmpty then none else some (p.1 * (hexVal ds : Int))
  | '0' :: 'X' :: r =>
      let ds := r.takeWhile isHexDigit
      if ds.isEmpty then none else some (p.1 * (hexVal ds : Int))
  | l2 =>
      let ds := l2.takeWhile Char.isDigit
      if ds.isEmpty then none else some (p.1 * (digitsVal ds : Int))

/-- Radix-free `parseInt` applied to a dynamic value: a number passes
through (the modelled numbers are integral), a string is parsed. -/
def parseIntV (v : Value) : Option Int :=
  match v with
  | .num n => some n
  | .str s => parseIntJS s

/-- Base-10 `parseInt(value, 10)` applied to a dynamic value (used by
the validator). -/
def parseIntV10 (v : Value) : Option Int :=
  match v with
  | .num n => some n
  | .str s => parseIntDec s

/-- String coercion of a dynamic value, for error-message interpolation. -/
def valueToString (v : Value) : String :=
  match v with
  | .num n => toString n
  | .str s => s

-- =============================================================================
-- Codec: decode (receiveMIDI) and its MSC helper parseMSC
-- =============================================================================

/-- A decoded MIDI message, mirroring the dynamic `midiData` record built
by `receiveMIDI` in src/midi.js.  Fields that a given message type does
not set are `none` (JavaScript `undefined`). -/
structure MidiEvent where
  type : String
  channel : Option Nat := none
  note : Option Nat := none
  velocity : Option Nat := none
  controller : Option Nat := none
  value : Option Nat := none
  deviceid : Option Nat := none
  commandformat : Option Nat := none
  command : Option Nat := none
  sysexMsg : Option (List Nat) := none
  raw : List Nat := []
deriving DecidableEq, Repr

/-- Model of `parseMSC` in src/midi.js: extract the raw numeric device
id, command-format and command bytes of an MSC sysex message.  The
returned record replaces the whole `midiData`, so it has no channel. -/
def parseMSC (message : List Nat) : MidiEvent :=
  { type := "msc"
    deviceid := message.get? 2
    commandformat := message.get? 4
    command := message.get? 5
    raw := message }

/-- Model of `receiveMIDI` in src/midi.js as a pure classification
function: from the raw received bytes to the event that is logged and
forwarded, or `none` when the message is empty, unclassified (empty
type) or classified `unknown` — those are suppressed by the source. -/
def receiveMIDI (message : List Nat) : Option MidiEvent :=
  match message with
  | [] => none
  | statusByte :: _ =>
    let channel := statusByte &&& 0x0f
    let command := statusByte &&& 0xf0
    let m1 := message.get? 1
    let m2 := message.get? 2
    if command = 0x90 then
      some { type := if m2.getD 0 > 0 then "noteon" else "noteoff"
             channel := some channel, note := m1, velocity := m2, raw := message }
    else if command = 0x80 then
      some { type := "noteoff", channel := some channel, note := m1, velocity := m2, raw := message }
    else if command = 0xb0 then
      some { type := "cc", channel := some channel, controller := m1, value := m2, raw := message }
    else if command = 0xc0 then
      some { type := "pc", channel := some channel, value := m1, raw := message }
    else if command = 0xd0 then
      some { type := "pressure", channel := some channel, value := m1, raw := message }
    else if command = 0xe0 then
      some { type := "pitchbend", channel := some channel
             value := some (m1.getD 0 ||| (m2.getD 0 <<< 7)), raw := message }
    else if command = 0xf0 then
      if statusByte = 0xf0 then
        if message.length ≥ 5 ∧ message.get? 1 = some 0x7f ∧ message.get? 3 = some 0x02 then
          some (parseMSC message)
        else
          some { type := "sysex", channel := some channel, sysexMsg := some message, raw := message }
      else none
    else none

-- =============================================================================
-- Codec: MSC encoding (BuildMSC and the device-id parsers)
-- =============================================================================

/-- An MSC device id as received from the API: an (integral) number or a
string.  Values that are neither (which make the source throw inside the
try/catch and return an empty message) are outside the modelled domain. -/
def DeviceId := Int ⊕ String
deriving DecidableEq, Repr

/-- List-based model of `String.prototype.startsWith` (kernel-reducible,
unlike `String.startsWith`). -/
def strStartsWith (s t : String) : Bool :=
  t.data.isPrefixOf s.data

/-- List-based model of `substring(n)` (kernel-reducible, unlike
`String.drop`). -/
def strDrop (s : String) (n : Nat) : String :=
  ⟨s.data.drop n⟩

/-- Model of `parseStringDeviceId` in src/midi.js. -/
def parseStringDeviceId (deviceId : String) : Int :=
  if deviceId = "all" then 0x7f
  else if strStartsWith deviceId "g" then
    match parseIntJS (strDrop deviceId 1) with
    | some group => if 1 ≤ group ∧ group ≤ 15 then 0x70 + (group - 1) else 0x7f
    | none => 0x7f
  else 0x7f

/-- Model of `parseIntegerDeviceId` in src/midi.js. -/
def parseIntegerDeviceId (deviceId : Int) : Int :=
  if 0 ≤ deviceId ∧ deviceId ≤ 111 then deviceId else 0x7f

/-- The device-id resolution ternary of `BuildMSC`:
`isNaN(parseInt(deviceId)) ? parseStringDeviceId(deviceId)
: parseIntegerDeviceId(parseInt(deviceId))`.  For a number,
`parseInt` is the identity on the modelled integral values. -/
def resolveDeviceId (deviceId : DeviceId) : Int :=
  match deviceId with
  | .inl n => parseIntegerDeviceId n
  | .inr s =>
    match parseIntJS s with
    | some n => parseIntegerDeviceId n
    | none => parseStringDeviceId s

/-- The fixed command-format table of `BuildMSC`. -/
def formatMap : List (String × Int) :=
  [("lighting.general", 0x01),
   ("sound.general", 0x10),
   ("machinery.general", 0x20),
   ("video.general", 0x30),
   ("projection.general", 0x40),
   ("processcontrol.general", 0x50),
   ("pyro.general", 0x60)]

/-- The fixed command table of `BuildMSC`. -/
def commandMap : List (String × Int) :=
  [("go", 0x01),
   ("stop", 0x02),
   ("resume", 0x03),
   ("timedgo", 0x04),
   ("load", 0x05),
   ("set", 0x06),
   ("fire", 0x07),
   ("alloff", 0x08),
   ("restore", 0x09),
   ("reset", 0x0a),
   ("gooff", 0x0b),
   ("gojam", 0x10)]

/-- Model of `stringToMSCData` in src/midi.js: the character codes of a
string. -/
def stringToMSCData (str : String) : List Int :=
  str.data.map (fun c => (c.toNat : Int))

/-- Model of `BuildMSC` in src/midi.js.  The optional cue, cue-list and
cue-path segments are appended only when truthy (present and
non-empty), the latter two each preceded by a 0x00 separator. -/
def BuildMSC (deviceId : DeviceId) (commandFormat command : String)
    (cue cueList cuePath : Option String) : List Int :=
  let deviceId_hex := resolveDeviceId deviceId
  let commandFormat_hex := jsOrNum (formatMap.lookup commandFormat) 0x7f
  let command_hex := jsOrNum (commandMap.lookup command) 0x01
  let msg := [0xf0, 0x7f, deviceId_hex, 0x02, commandFormat_hex, command_hex]
  let msg := msg ++ (if truthyStr cue then stringToMSCData (cue.getD "") else [])
  let msg := msg ++ (if truthyStr cueList then 0x00 :: stringToMSCData (cueList.getD "") else [])
  let msg := msg ++ (if truthyStr cuePath then 0x00 :: stringToMSCData (cuePath.getD "") else [])
  msg ++ [0xf7]

-- =============================================================================
-- Codec: encode (sendMIDI)
-- =============================================================================

/-- An outbound MIDI request as consumed by `sendMIDI` on the numeric
code paths (the dynamic `midiObj`).  `velocity` is optional because the
source applies a `|| 127` / `|| 0` fallback to it. -/
structure MidiSendObj where
  midiport : String := ""
  midicommand : String
  channel : Int := 0
  note : Int := 0
  velocity : Option Int := none
  controller : Int := 0
  value : Int := 0
  sysexMessage : String := ""
  deviceid : DeviceId := Sum.inl 0
  commandformat : String := ""
  command : String := ""
  cue : Option String := none
  cuelist : Option String := none
  cuepath : Option String := none

/-- Model of the message-building switch of `sendMIDI` in src/midi.js:
from the request to the byte list handed to `output.send`, or `none`
for the `invalid-midi-command` callback result.  Message elements are
`Option Int` because the sysex path can produce `NaN` entries
(`parseInt` of a malformed token).  The pitch-bend split
`value & 0x7f` / `(value >> 7) & 0x7f` is modelled with `emod`/`fdiv`,
which agree with the JavaScript 32-bit operations on the modelled
range. -/
def sendMIDI (midiObj : MidiSendObj) : Option (List (Option Int)) :=
  match lowerStr midiObj.midicommand with
  | "noteon" =>
      some [some (0x90 + midiObj.channel), some midiObj.note, some (jsOrNum midiObj.velocity 127)]
  | "noteoff" =>
      some [some (0x80 + midiObj.channel), some midiObj.note, some (jsOrNum midiObj.velocity 0)]
  | "cc" =>
      some [some (0xb0 + midiObj.channel), some midiObj.controller, some midiObj.value]
  | "pc" =>
      some [some (0xc0 + midiObj.channel), some midiObj.value]
  | "pressure" =>
      some [some (0xd0 + midiObj.channel), some midiObj.value]
  | "pitchbend" =>
      let lsb := midiObj.value.emod 128
      let msb := (midiObj.value.fdiv 128).emod 128
      some [some (0xe0 + midiObj.channel), some lsb, some msb]
  | "sysex" =>
      some ((midiObj.sysexMessage.splitOn ",").map (fun v => parseIntJS v.trim))
  | "msc" =>
      some ((BuildMSC midiObj.deviceid midiObj.commandformat midiObj.command
        midiObj.cue midiObj.cuelist midiObj.cuepath).map some)
  | _ => none

-- =============================================================================
-- Triggers: data model, matching and execution
-- =============================================================================

/-- A persisted trigger rule, mirroring the dynamic trigger objects of
src/midi.js.  Absent fields are `none` (JavaScript `undefined`); numeric
criteria may hold the wildcard string "*", hence `Value`. -/
structure Trigger where
  id : String := ""
  midicommand : Option String := none
  midiport : Option String := none
  channel : Option Value := none
  note : Option Value := none
  velocity : Option Value := none
  controller : Option Value := none
  value : Option Value := none
  actiontype : Option String := none
  url : Option String := none
  method : Option String := none
  jsondata : Option String := none
  outputport : Option String := none
  outputcommand : Option String := none
  outputchannel : Option Value := none
  outputnote : Option Value := none
  outputvelocity : Option Value := none
  outputcontroller : Option Value := none
  outputvalue : Option Value := none
deriving DecidableEq, Repr

/-- JavaScript strict equality `parseInt(criterion) === field` between a
parsed trigger criterion (`none` = NaN) and an event field (`none` =
undefined): true only when both are present, equal numbers — NaN and
undefined are `===` to nothing relevant here. -/
def numEq (a : Option Int) (b : Option Nat) : Bool :=
  match a, b with
  | some x, some y => x = (y : Int)
  | _, _ => false

/-- One criterion check of `matchesTrigger`: the match fails on this
criterion when it is defined, not the wildcard "*", and its parsed
number is not strictly equal to the event's field. -/
def critFails (crit : Option Value) (field : Option Nat) : Bool :=
  match crit with
  | some v => v ≠ Value.str "*" ∧ ¬ numEq (parseIntV v) field
  | none => false

/-- Model of `matchesTrigger` in src/midi.js.  A missing `midicommand`
is compared as the empty string (which matches no event type; the
source would raise a TypeError there, which the modelled total function
renders as a non-match). -/
def matchesTrigger (trigger : Trigger) (portName : String) (midiType : String)
    (midiData : MidiEvent) : Bool :=
  if lowerStr (trigger.midicommand.getD "") ≠ midiType then false
  else if truthyStr trigger.midiport ∧ trigger.midiport ≠ some "*" ∧
      trigger.midiport ≠ some portName then false
  else if critFails trigger.channel midiData.channel then false
  else if (midiType = "noteon" ∨ midiType = "noteoff") ∧
      critFails trigger.note midiData.note then false
  else if critFails trigger.velocity midiData.velocity then false
  else if midiType = "cc" ∧ critFails trigger.controller midiData.controller then false
  else if critFails trigger.value midiData.value then false
  else true

/-- The outbound request built by `runMIDITrigger_MIDI`: every field is
drawn from the trigger itself, never from the matched event. -/
structure TriggerMidiObj where
  midiport : Option String
  midicommand : Option String
  channel : Option Value
  note : Option Value
  velocity : Option Value
  controller : Option Value
  value : Option Value
deriving DecidableEq, Repr

/-- Model of `runMIDITrigger_MIDI` in src/midi.js: builds the outbound
`midiObj` with `??` fallbacks from output fields to the trigger's own
match-criteria fields (`||` for `outputcommand`). -/
def runMIDITrigger_MIDI (trigger : Trigger) : TriggerMidiObj :=
  { midiport := trigger.outputport
    midicommand := jsOrStr trigger.outputcommand trigger.midicommand
    channel := trigger.outputchannel.orElse fun _ => trigger.channel
    note := trigger.outputnote.orElse fun _ => trigger.note
    velocity := trigger.outputvelocity.orElse fun _ => trigger.velocity
    controller := trigger.outputcontroller.orElse fun _ => trigger.controller
    value := trigger.outputvalue.orElse fun _ => trigger.value }

/-- The observable effect of `executeTrigger`: dispatch an HTTP action,
dispatch an outbound MIDI request, or record only a warning. -/
inductive TriggerEffect where
  | httpAction (trigger : Trigger)
  | midiAction (midiObj : TriggerMidiObj)
  | warnUnknown (actiontype : Option String)
deriving DecidableEq, Repr

/-- Model of `executeTrigger` in src/midi.js: the switch over
`trigger.actiontype`.  `midiData` is received (as in the source) but
never consulted by any branch. -/
def executeTrigger (trigger : Trigger) (_midiData : MidiEvent) : TriggerEffect :=
  match trigger.actiontype with
  | some "http" => .httpAction trigger
  | some "midi" => .midiAction (runMIDITrigger_MIDI trigger)
  | a => .warnUnknown a

-- =============================================================================
-- Activity log
-- =============================================================================

/-- An activity-log entry as constructed by `addToLog`.  The timestamp
is supplied by the caller here, standing for the wall-clock read the
source performs. -/
structure LogEntry where
  timestamp : String := ""
  direction : String := ""
  port : String := ""
  command : String := ""
  data : String := ""
deriving DecidableEq, Repr

/-- Model of `addToLog` in src/midi.js: push the entry, then `shift`
off the oldest entry when the buffer exceeds 500. -/
def addToLog (e : LogEntry) (log : List LogEntry) : List LogEntry :=
  if (log ++ [e]).length > 500 then (log ++ [e]).drop 1 else log ++ [e]

/-- Appending a whole stream of entries to the log, oldest first. -/
def addAllToLog (log : List LogEntry) (es : List LogEntry) : List LogEntry :=
  es.foldl (fun l e => addToLog e l) log

-- =============================================================================
-- Validation
-- =============================================================================

/-- The inclusive limits of one MIDI parameter. -/
structure MidiLimit where
  min : Int
  max : Int
  name : String
deriving DecidableEq, Repr

/-- Model of the `MIDI_LIMITS` table in src/midi.js. -/
def MIDI_LIMITS : List (String × MidiLimit) :=
  [("channel", ⟨0, 15, "Channel"⟩),
   ("note", ⟨0, 127, "Note"⟩),
   ("velocity", ⟨0, 127, "Velocity"⟩),
   ("value", ⟨0, 127, "Value"⟩),
   ("controller", ⟨0, 127, "Controller"⟩),
   ("program", ⟨0, 127, "Program"⟩),
   ("pitchbend", ⟨0, 16383, "Pitch Bend"⟩)]

/-- Model of `VALID_MIDI_COMMANDS` in src/midi.js. -/
def VALID_MIDI_COMMANDS : List String :=
  ["noteon", "noteoff", "cc", "pc", "pressure", "pitchbend", "sysex", "msc"]

/-- Result of `validateMIDIValue`. -/
structure VVal where
  valid : Bool
  value : Option Value := none
  error : Option String := none
deriving DecidableEq, Repr

/-- Model of `validateMIDIValue` in src/midi.js. -/
def validateMIDIValue (paramName : String) (value : Value)
    (allowWildcard : Bool := false) : VVal :=
  if allowWildcard ∧ value = .str "*" then
    { valid := true, value := some (.str "*") }
  else
    match MIDI_LIMITS.lookup paramName with
    | none => { valid := false, error := some ("Unknown MIDI parameter: " ++ paramName) }
    | some limits =>
      match parseIntV10 value with
      | none =>
        { valid := false
          error := some (limits.name ++ " must be a number, got: " ++ valueToString value) }
      | some num =>
        if num < limits.min ∨ num > limits.max then
          { valid := false
            error := some (limits.name ++ " must be " ++ toString limits.min ++ "-" ++
              toString limits.max ++ ", got: " ++ toString num) }
        else { valid := true, value := some (.num num) }

/-- Result of the object validators. -/
structure VResult where
  valid : Bool
  errors : List String := []
deriving DecidableEq, Repr

/-- The error pushed for one `validateMIDIValue` call when it failed. -/
def errOf (r : VVal) : List String :=
  if r.valid then [] else r.error.toList

/-- The midicommand errors of `validateTriggerObject` (a falsy —
missing or empty — midicommand is required, a present one must be a
known command). -/
def vtCommandErrs (t : Trigger) : List String :=
  match t.midicommand with
  | none => ["midicommand is required"]
  | some s =>
    if s = "" then ["midicommand is required"]
    else if VALID_MIDI_COMMANDS.contains (lowerStr s) then []
    else ["Invalid midicommand: " ++ s]

/-- The channel errors of `validateTriggerObject` (checked only when
present and not the wildcard). -/
def vtChannelErrs (t : Trigger) : List String :=
  if ["noteon", "noteoff", "cc", "pc", "pressure", "pitchbend"].contains
      (lowerStr (t.midicommand.getD "")) then
    match t.channel with
    | some v => if v = .str "*" then [] else errOf (validateMIDIValue "channel" v)
    | none => []
  else []

/-- The note errors of `validateTriggerObject` (checked only when
present and not the wildcard). -/
def vtNoteErrs (t : Trigger) : List String :=
  if ["noteon", "noteoff"].contains (lowerStr (t.midicommand.getD "")) then
    match t.note with
    | some v => if v = .str "*" then [] else errOf (validateMIDIValue "note" v)
    | none => []
  else []

/-- The actiontype errors of `validateTriggerObject`. -/
def vtActionErrs (t : Trigger) : List String :=
  match t.actiontype with
  | none => ["actiontype is required"]
  | some s =>
    if s = "" then ["actiontype is required"]
    else if ["http", "midi"].contains s then []
    else ["Invalid actiontype: " ++ s ++ ". Valid types: http, midi"]

/-- The url requirement of `validateTriggerObject` for http actions. -/
def vtUrlErrs (t : Trigger) : List String :=
  if t.actiontype = some "http" ∧ ¬ truthyStr t.url then
    ["url is required for http action"]
  else []

/-- The outputport requirement of `validateTriggerObject` for midi
actions. -/
def vtOutputportErrs (t : Trigger) : List String :=
  if t.actiontype = some "midi" ∧ ¬ truthyStr t.outputport then
    ["outputport is required for midi action"]
  else []

/-- All errors accumulated by `validateTriggerObject`, in source push
order. -/
def triggerErrors (t : Trigger) : List String :=
  vtCommandErrs t ++ vtChannelErrs t ++ vtNoteErrs t ++
    vtActionErrs t ++ vtUrlErrs t ++ vtOutputportErrs t

/-- Model of `validateTriggerObject` in src/midi.js, with the error
pushes grouped per check in source order. -/
def validateTriggerObject (t : Trigger) : VResult :=
  if (triggerErrors t).length > 0 then { valid := false, errors := triggerErrors t }
  else { valid := true }

-- =============================================================================
-- Theorems
-- =============================================================================

/-- For a channel below 16, the high and low nibbles of a note-on
status byte recover the command 0x90 and the channel. -/
theorem statusNibbles (ch : Nat) (h : ch ≤ 15) :
    (0x90 + ch) &&& 0xf0 = 0x90 ∧ (0x90 + ch) &&& 0x0f = ch := by
  interval_cases ch <;> exact ⟨rfl, rfl⟩

/-- C4: round-trip for a full-velocity note-on: encoding the request
{noteon, channel 0, note 60, velocity 127} yields the bytes
[0x90, 60, 127], and decoding those bytes reproduces an event of type
noteon with channel 0, note 60, velocity 127. -/
theorem noteon_fullvel_roundtrip :
    sendMIDI { midiport := "p", midicommand := "noteon", channel := 0, note := 60,
               velocity := some 127 } = some [some 0x90, some 60, some 127]
    ∧ receiveMIDI [0x90, 60, 127] = some { type := "noteon", channel := some 0,
                                           note := some 60, velocity := some 127,
                                           raw := [0x90, 60, 127] } := by
  decide

/-- C1 counterexample: encoding a noteon request with velocity 0 (on
channel 0, note 60) produces the bytes [0x90, 60, 127] — the JavaScript
`velocity || 127` fallback replaces velocity 0 with 127 — so decoding
the encoded message yields type noteon, not the claimed noteoff. -/
theorem noteon_velocity0_roundtrip_cex :
    sendMIDI { midiport := "p", midicommand := "noteon", channel := 0, note := 60,
               velocity := some 0 } = some [some 0x90, some 60, some 127]
    ∧ (receiveMIDI [0x90, 60, 127]).map MidiEvent.type ≠ some "noteoff"
    ∧ (receiveMIDI [0x90, 60, 127]).map MidiEvent.type = some "noteon" := by
  decide

/-- C1 (amended): for every channel in [0,15] and note in [0,127],
encoding a noteon request with velocity 0 produces a message whose
status byte is 0x90+channel, but whose velocity byte is 127 (the
`|| 127` default swallows velocity 0); decoding that encoded message
yields an event of type noteon with the same note and velocity 127.  A
raw received message [0x90+channel, note, 0] does decode as noteoff
with the same note and velocity 0. -/
theorem noteon_velocity0_encode_decode (ch note : Nat) (hch : ch ≤ 15) (_hn : note ≤ 127) :
    sendMIDI { midiport := "p", midicommand := "noteon", channel := (ch : Int),
               note := (note : Int), velocity := some 0 }
      = some [some ((0x90 : Int) + (ch : Int)), some (note : Int), some 127]
    ∧ (receiveMIDI [0x90 + ch, note, 127]).map MidiEvent.type = some "noteon"
    ∧ (receiveMIDI [0x90 + ch, note, 127]).bind MidiEvent.note = some note
    ∧ (receiveMIDI [0x90 + ch, note, 127]).bind MidiEvent.velocity = some 127
    ∧ (receiveMIDI [0x90 + ch, note, 0]).map MidiEvent.type = some "noteoff"
    ∧ (receiveMIDI [0x90 + ch, note, 0]).bind MidiEvent.note = some note
    ∧ (receiveMIDI [0x90 + ch, note, 0]).bind MidiEvent.velocity = some 0 := by
  obtain ⟨h1, h2⟩ := statusNibbles ch hch
  refine ⟨rfl, ?_, ?_, ?_, ?_, ?_, ?_⟩ <;> simp [receiveMIDI, h1, h2]

/-- Witness for the amended C1 at channel 5, note 60. -/
theorem noteon_velocity0_encode_decode_witness :
    (receiveMIDI [0x90 + 5, 60, 127]).map MidiEvent.type = some "noteon"
    ∧ (receiveMIDI [0x90 + 5, 60, 127]).bind MidiEvent.velocity = some 127
    ∧ (receiveMIDI [0x90 + 5, 60, 0]).map MidiEvent.type = some "noteoff" := by
  have h := noteon_velocity0_encode_decode 5 60 (by decide) (by decide)
  exact ⟨h.2.1, h.2.2.2.1, h.2.2.2.2.1⟩

/-- C3 counterexample: the four-byte sysex [0xF0, 0x7F, 5, 0x02] has
first byte 0xF0, byte 1 equal to 0x7F and byte 3 equal to 0x02, yet it
is not reclassified to msc — the source additionally requires a length
of at least 5, so it stays sysex. -/
theorem msc_reclassify_length4_cex :
    (receiveMIDI [0xf0, 0x7f, 5, 0x02]).map MidiEvent.type = some "sysex"
    ∧ (receiveMIDI [0xf0, 0x7f, 5, 0x02]).map MidiEvent.type ≠ some "msc"
    ∧ [0xf0, 0x7f, 5, 0x02].get? 1 = some 0x7f
    ∧ [0xf0, 0x7f, 5, 0x02].get? 3 = some 0x02 := by
  decide

/-- C3 (amended): for every received byte sequence of length at least 5
whose first byte is exactly 0xF0 and whose bytes satisfy
bytes[1] = 0x7F and bytes[3] = 0x02, decoding reclassifies the event
from sysex to msc, and the event carries deviceid = bytes[2],
commandformat = bytes[4] and command = bytes[5] as raw numeric values
(command is absent when the message has exactly 5 bytes). -/
theorem msc_reclassification (d f : Nat) (rest : List Nat) :
    receiveMIDI (0xf0 :: 0x7f :: d :: 0x02 :: f :: rest) =
      some { type := "msc", deviceid := some d, commandformat := some f,
             command := rest.get? 0,
             raw := 0xf0 :: 0x7f :: d :: 0x02 :: f :: rest } := by
  simp [receiveMIDI, parseMSC]

/-- The concrete C5 trigger: noteon, wildcard channel, note 60, http
action with an arbitrary url. -/
def wildcardNoteTrigger (u : String) : Trigger :=
  { midicommand := some "noteon", channel := some (.str "*"), note := some (.num 60),
    actiontype := some "http", url := some u }

/-- C5: the trigger {midicommand noteon, channel "*", note 60,
actiontype http, url any} matches an incoming noteon event exactly when
the event's note equals 60 — for every port, every channel and every
velocity, and never when the note differs (in particular not for note
61). -/
theorem wildcardNoteTrigger_matches (u portName : String) (d : MidiEvent) :
    matchesTrigger (wildcardNoteTrigger u) portName "noteon" d =
      decide (d.note = some 60) := by
  cases h : d.note with
  | none => simp [wildcardNoteTrigger, matchesTrigger, critFails, truthyStr,
      parseIntV, numEq, h, lowerStr]
  | some n =>
    by_cases hn : n = 60
    · simp [wildcardNoteTrigger, matchesTrigger, critFails, truthyStr,
        parseIntV, numEq, h, hn, lowerStr]
    · simp [wildcardNoteTrigger, matchesTrigger, critFails, truthyStr,
        parseIntV, numEq, h, hn, lowerStr]
      omega

/-- C6 (amended): MSC device-id resolution is total and never signals
an error, but it runs through JavaScript parseInt prefix parsing first:
a numeric id in [0,111] passes through and any other number falls back
to 0x7F; a string with a parsable numeric prefix resolves to that
number under the same range rule (so "12abc" resolves to 12, not to the
broadcast fallback); otherwise "all" maps to 0x7F, a string starting
with "g" whose remainder prefix-parses to N in 1..15 maps to
0x70+(N-1) (so "g3" maps to 0x72), and every remaining string maps to
0x7F. -/
theorem resolveDeviceId_cases :
    (∀ n : Int, resolveDeviceId (Sum.inl n) = if 0 ≤ n ∧ n ≤ 111 then n else 0x7f)
    ∧ resolveDeviceId (Sum.inr "all") = 0x7f
    ∧ resolveDeviceId (Sum.inr "g3") = 0x72
    ∧ resolveDeviceId (Sum.inr "12abc") = 12
    ∧ (∀ s n, parseIntJS s = some n →
        resolveDeviceId (Sum.inr s) = if 0 ≤ n ∧ n ≤ 111 then n else 0x7f)
    ∧ (∀ s, parseIntJS s = none → s ≠ "all" → strStartsWith s "g" = false →
        resolveDeviceId (Sum.inr s) = 0x7f)
    ∧ (∀ s g, parseIntJS s = none → s ≠ "all" → strStartsWith s "g" = true →
        parseIntJS (strDrop s 1) = some g →
        resolveDeviceId (Sum.inr s) =
          if 1 ≤ g ∧ g ≤ 15 then 0x70 + (g - 1) else 0x7f)
    ∧ (∀ s, parseIntJS s = none → s ≠ "all" → strStartsWith s "g" = true →
        parseIntJS (strDrop s 1) = none →
        resolveDeviceId (Sum.inr s) = 0x7f) := by
  refine ⟨?_, by decide, by decide, by decide, ?_, ?_, ?_, ?_⟩
  · intro n
    simp [resolveDeviceId, parseIntegerDeviceId]
  · intro s n h
    simp [resolveDeviceId, h, parseIntegerDeviceId]
  · intro s h1 h2 h3
    simp [resolveDeviceId, h1, parseStringDeviceId, h2, h3]
  · intro s g h1 h2 h3 h4
    simp [resolveDeviceId, h1, parseStringDeviceId, h2, h3, h4]
  · intro s h1 h2 h3 h4
    simp [resolveDeviceId, h1, parseStringDeviceId, h2, h3, h4]

/-- Witness for the amended C6: an out-of-range numeric id falls back
to 0x7F, a group string resolves through its parsed group number, and a
g-string with an unparsable remainder falls back to 0x7F. -/
theorem resolveDeviceId_cases_witness :
    resolveDeviceId (Sum.inl 200) = 0x7f ∧ resolveDeviceId (Sum.inr "g7") = 0x76
    ∧ resolveDeviceId (Sum.inr "gx") = 0x7f := by
  refine ⟨?_, ?_, ?_⟩
  · rw [resolveDeviceId_cases.1 200]
    decide
  · rw [resolveDeviceId_cases.2.2.2.2.2.2.1 "g7" 7 (by decide) (by decide) (by decide)
      (by decide)]
    decide
  · exact resolveDeviceId_cases.2.2.2.2.2.2.2 "gx" (by decide) (by decide) (by decide)
      (by decide)

/-- C6 counterexample: the string "12abc" is neither a numeric id in
[0,111], nor "all", nor of the form "g"+N — yet it does not fall back
to the broadcast byte 0x7F: parseInt prefix parsing resolves it to 12. -/
theorem resolveDeviceId_prefix_cex :
    resolveDeviceId (Sum.inr "12abc") = 12 ∧ (12 : Int) ≠ 0x7f := by
  decide

/-- C7: the two silent defaults are independent: for any device id,
cue fields and command whatsoever, a command-format name missing from
the fixed format table yields format byte 0x7F at index 4; and for any
format, a command name missing from the fixed command table yields
command byte 0x01 (the code for go) at index 5; in every case — no
error — the message is still built and returned, at least 7 bytes long
and terminated by 0xF7. -/
theorem BuildMSC_unknown_defaults (dev : DeviceId) (fmt cmd : String)
    (cue cueList cuePath : Option String) :
    (formatMap.lookup fmt = none →
      (BuildMSC dev fmt cmd cue cueList cuePath).get? 4 = some 0x7f)
    ∧ (commandMap.lookup cmd = none →
      (BuildMSC dev fmt cmd cue cueList cuePath).get? 5 = some 0x01)
    ∧ 7 ≤ (BuildMSC dev fmt cmd cue cueList cuePath).length
    ∧ (BuildMSC dev fmt cmd cue cueList cuePath).getLast? = some 0xf7 := by
  refine ⟨?_, ?_, ?_, ?_⟩
  · intro hf
    simp [BuildMSC, hf, jsOrNum]
  · intro hc
    simp [BuildMSC, hc, jsOrNum]
  · simp only [BuildMSC, List.length_append, List.length_cons, List.length_nil]
    omega
  · unfold BuildMSC
    exact List.getLast?_concat _

/-- Witness for C7: an unknown format paired with the known command
"go", and an unknown command paired with the known format
"lighting.general". -/
theorem BuildMSC_unknown_defaults_witness :
    (BuildMSC (Sum.inl 1) "bogus" "go" none none none).get? 4 = some 0x7f
    ∧ (BuildMSC (Sum.inl 1) "lighting.general" "bogus" none none none).get? 5 = some 0x01 := by
  exact ⟨(BuildMSC_unknown_defaults (Sum.inl 1) "bogus" "go" none none none).1 (by decide),
    (BuildMSC_unknown_defaults (Sum.inl 1) "lighting.general" "bogus" none none
      none).2.1 (by decide)⟩

/-- C9: a trigger whose actiontype is neither http nor midi makes
`executeTrigger` record only a warning: the total model returns the
warnUnknown effect — no HTTP dispatch, no MIDI send, no exception. -/
theorem executeTrigger_unknown_action (t : Trigger) (d : MidiEvent)
    (h1 : t.actiontype ≠ some "http") (h2 : t.actiontype ≠ some "midi") :
    executeTrigger t d = .warnUnknown t.actiontype := by
  unfold executeTrigger
  split <;> simp_all

/-- Witness for C9 at the unknown actiontype "log". -/
theorem executeTrigger_unknown_action_witness :
    executeTrigger { actiontype := some "log" } { type := "noteon" } =
      .warnUnknown (some "log") :=
  executeTrigger_unknown_action { actiontype := some "log" } { type := "noteon" }
    (by decide) (by decide)

/-- C10: for a midi-action trigger, the outbound request dispatched by
`executeTrigger` is built exclusively from the trigger's own fields:
the matched event is never consulted (the effect is the same for every
event), each absent output field falls back to the trigger's own
match-criterion field, each present output field wins, and a wildcard
"*" stored in a match criterion passes through unchanged into the
outbound request. -/
theorem executeTrigger_midi_fields (t : Trigger) (d d2 : MidiEvent)
    (h : t.actiontype = some "midi") :
    executeTrigger t d = .midiAction (runMIDITrigger_MIDI t)
    ∧ executeTrigger t d = executeTrigger t d2
    ∧ (runMIDITrigger_MIDI t).midiport = t.outputport
    ∧ (runMIDITrigger_MIDI t).midicommand = jsOrStr t.outputcommand t.midicommand
    ∧ (t.outputchannel = none → (runMIDITrigger_MIDI t).channel = t.channel)
    ∧ (t.outputnote = none → (runMIDITrigger_MIDI t).note = t.note)
    ∧ (t.outputvelocity = none → (runMIDITrigger_MIDI t).velocity = t.velocity)
    ∧ (t.outputcontroller = none → (runMIDITrigger_MIDI t).controller = t.controller)
    ∧ (t.outputvalue = none → (runMIDITrigger_MIDI t).value = t.value)
    ∧ (∀ v, t.outputchannel = some v → (runMIDITrigger_MIDI t).channel = some v)
    ∧ (∀ v, t.outputnote = some v → (runMIDITrigger_MIDI t).note = some v)
    ∧ (t.outputnote = none → t.note = some (.str "*") →
        (runMIDITrigger_MIDI t).note = some (.str "*")) := by
  refine ⟨by simp [executeTrigger, h], by simp [executeTrigger, h], rfl, rfl,
    ?_, ?_, ?_, ?_, ?_, ?_, ?_, ?_⟩ <;>
    intro hv <;>
    simp_all [runMIDITrigger_MIDI, Option.orElse]

/-- The concrete trigger used to witness C10: wildcard note criterion,
no outputnote, an explicit outputchannel. -/
def demoMidiTrigger : Trigger :=
  { midicommand := some "noteon", channel := some (.str "*"), note := some (.str "*"),
    actiontype := some "midi", outputport := some "out",
    outputchannel := some (.num 2) }

/-- Witness for C10: the wildcard note criterion passes through into
the outbound request and the explicit output channel wins. -/
theorem executeTrigger_midi_fields_witness :
    executeTrigger demoMidiTrigger { type := "noteon" } =
      .midiAction (runMIDITrigger_MIDI demoMidiTrigger)
    ∧ (runMIDITrigger_MIDI demoMidiTrigger).note = some (.str "*")
    ∧ (runMIDITrigger_MIDI demoMidiTrigger).channel = some (.num 2) := by
  have h := executeTrigger_midi_fields demoMidiTrigger { type := "noteon" }
    { type := "noteon" } rfl
  exact ⟨h.1, by decide, by decide⟩

/-- One append step of the log, under the buffer invariant: it appends
the entry and drops the (possible) overflow from the front. -/
theorem addToLog_of_le (e : LogEntry) (log : List LogEntry) (h : log.length ≤ 500) :
    addToLog e log = (log ++ [e]).drop (log.length + 1 - 500) := by
  unfold addToLog
  by_cases hl : (log ++ [e]).length > 500
  · rw [if_pos hl]
    have h500 : log.length + 1 - 500 = 1 := by
      simp [List.length_append] at hl; omega
    rw [h500]
  · rw [if_neg hl]
    have h0 : log.length + 1 - 500 = 0 := by
      simp [List.length_append] at hl; omega
    rw [h0, List.drop_zero]

/-- Folding a stream of appends over a log within the bound keeps
exactly the most recent 500 of the combined stream (with truncated
subtraction, this covers the under-full case as drop 0). -/
theorem addAllToLog_eq (es : List LogEntry) : ∀ acc : List LogEntry, acc.length ≤ 500 →
    addAllToLog acc es = (acc ++ es).drop (acc.length + es.length - 500) := by
  induction es with
  | nil =>
    intro acc h
    have h0 : acc.length - 500 = 0 := by omega
    simp [addAllToLog, h0]
  | cons e es ih =>
    intro acc h
    have hstep : addToLog e acc = (acc ++ [e]).drop (acc.length + 1 - 500) :=
      addToLog_of_le e acc h
    have hlen : (addToLog e acc).length ≤ 500 := by
      rw [hstep, List.length_drop, List.length_append]
      simp
      omega
    have h1 : addAllToLog acc (e :: es) = addAllToLog (addToLog e acc) es := rfl
    have hk : acc.length + 1 - 500 ≤ (acc ++ [e]).length := by
      rw [List.length_append]
      simp
      omega
    rw [h1, ih _ hlen, hstep, List.length_drop, List.length_append,
      ← List.drop_append_of_le_length hk, List.drop_drop]
    have hl : (acc ++ [e]) ++ es = acc ++ e :: es := by simp
    rw [hl]
    exact congrArg (fun k => List.drop k (acc ++ e :: es)) (by simp; omega)

/-- A synthetic log entry for the concrete 501-append scenario. -/
def demoEntry (n : Nat) : LogEntry :=
  { timestamp := toString n, direction := "RX", port := "p", command := "noteon" }

/-- The concrete stream of 501 distinct appended entries. -/
def demoLog501 : List LogEntry :=
  (List.range 501).map demoEntry

/-- C8: the activity log is a FIFO ring buffer bounded at 500 entries:
after appending any stream of entries to an empty log the buffer holds
exactly the last min(length, 500) entries of the stream in order (so an
append to a full log evicts exactly the oldest entry), and in
particular appending 501 entries leaves exactly 500 — the stream minus
its first (oldest) entry, so the newest entry is present. -/
theorem addToLog_fifo_ring_buffer :
    (∀ es : List LogEntry, (addAllToLog [] es).length = min es.length 500
      ∧ addAllToLog [] es = es.drop (es.length - 500))
    ∧ demoLog501.length = 501
    ∧ addAllToLog [] demoLog501 = demoLog501.drop 1
    ∧ (addAllToLog [] demoLog501).length = 500 := by
  have hgen : ∀ es : List LogEntry, addAllToLog [] es = es.drop (es.length - 500) := by
    intro es
    have h := addAllToLog_eq es [] (by simp)
    simpa using h
  have hlen : demoLog501.length = 501 := by simp [demoLog501]
  refine ⟨fun es => ⟨?_, hgen es⟩, hlen, ?_, ?_⟩
  · rw [hgen es, List.length_drop]
    omega
  · rw [hgen demoLog501, hlen]
  · rw [hgen demoLog501, List.length_drop, hlen]

/-- The channel range check of the trigger validator succeeds exactly
when the value parses (base 10) to a number within [0,15]. -/
theorem errOf_channel_nil_iff (v : Value) :
    errOf (validateMIDIValue "channel" v) = [] ↔
      ∃ n, parseIntV10 v = some n ∧ 0 ≤ n ∧ n ≤ 15 := by
  have hlk : List.lookup "channel" MIDI_LIMITS = some ⟨0, 15, "Channel"⟩ := rfl
  unfold validateMIDIValue errOf
  rw [hlk]
  cases hp : parseIntV10 v with
  | none => simp [hp]
  | some n =>
    by_cases hr : n < 0 ∨ n > 15 <;>
      simp [hp, hr] <;>
      omega

/-- The note range check of the trigger validator succeeds exactly when
the value parses (base 10) to a number within [0,127]. -/
theorem errOf_note_nil_iff (v : Value) :
    errOf (validateMIDIValue "note" v) = [] ↔
      ∃ n, parseIntV10 v = some n ∧ 0 ≤ n ∧ n ≤ 127 := by
  have hlk : List.lookup "note" MIDI_LIMITS = some ⟨0, 127, "Note"⟩ := rfl
  unfold validateMIDIValue errOf
  rw [hlk]
  cases hp : parseIntV10 v with
  | none => simp [hp]
  | some n =>
    by_cases hr : n < 0 ∨ n > 127 <;>
      simp [hp, hr] <;>
      omega

/-- The midicommand check passes exactly when a command is present and
its lower-cased form is a recognized command. -/
theorem vtCommandErrs_nil_iff (t : Trigger) :
    vtCommandErrs t = [] ↔
      ∃ s, t.midicommand = some s ∧ VALID_MIDI_COMMANDS.contains (lowerStr s) = true := by
  unfold vtCommandErrs
  cases t.midicommand with
  | none => simp
  | some s =>
    by_cases h0 : s = ""
    · subst h0
      simp [lowerStr, VALID_MIDI_COMMANDS]
    · by_cases h1 : VALID_MIDI_COMMANDS.contains (lowerStr s) = true <;> simp [h0, h1]

/-- The channel criterion is checked only for the six channel-voice
commands and only when present and not the wildcard. -/
theorem vtChannelErrs_nil_iff (t : Trigger) :
    vtChannelErrs t = [] ↔
      (∀ v, t.channel = some v → v ≠ .str "*" →
        (["noteon", "noteoff", "cc", "pc", "pressure", "pitchbend"].contains
          (lowerStr (t.midicommand.getD "")) = true →
          ∃ n, parseIntV10 v = some n ∧ 0 ≤ n ∧ n ≤ 15)) := by
  by_cases hc : ["noteon", "noteoff", "cc", "pc", "pressure", "pitchbend"].contains
      (lowerStr (t.midicommand.getD "")) = true
  · unfold vtChannelErrs
    cases hch : t.channel with
    | none => simp [hc, hch]
    | some v =>
      by_cases hw : v = .str "*"
      · simp [hc, hch, hw]
      · simp [hc, hch, hw, errOf_channel_nil_iff]
  · have hnil : vtChannelErrs t = [] := by
      unfold vtChannelErrs
      rw [if_neg hc]
    rw [hnil]
    constructor
    · intro _ v hv hw hcc
      exact absurd hcc hc
    · intro _
      rfl

/-- The note criterion is checked only for note commands and only when
present and not the wildcard. -/
theorem vtNoteErrs_nil_iff (t : Trigger) :
    vtNoteErrs t = [] ↔
      (∀ v, t.note = some v → v ≠ .str "*" →
        (["noteon", "noteoff"].contains (lowerStr (t.midicommand.getD "")) = true →
          ∃ n, parseIntV10 v = some n ∧ 0 ≤ n ∧ n ≤ 127)) := by
  by_cases hc : ["noteon", "noteoff"].contains (lowerStr (t.midicommand.getD "")) = true
  · unfold vtNoteErrs
    cases hch : t.note with
    | none => simp [hc, hch]
    | some v =>
      by_cases hw : v = .str "*"
      · simp [hc, hch, hw]
      · simp [hc, hch, hw, errOf_note_nil_iff]
  · have hnil : vtNoteErrs t = [] := by
      unfold vtNoteErrs
      rw [if_neg hc]
    rw [hnil]
    constructor
    · intro _ v hv hw hcc
      exact absurd hcc hc
    · intro _
      rfl

/-- The actiontype check passes exactly when the actiontype is http or
midi. -/
theorem vtActionErrs_nil_iff (t : Trigger) :
    vtActionErrs t = [] ↔ t.actiontype = some "http" ∨ t.actiontype = some "midi" := by
  unfold vtActionErrs
  cases t.actiontype with
  | none => simp
  | some s =>
    by_cases h0 : s = ""
    · subst h0; simp
    · by_cases h1 : s = "http"
      · subst h1; simp
      · by_cases h2 : s = "midi"
        · subst h2; simp
        · simp [h0, h1, h2]

/-- The url requirement applies exactly to http triggers. -/
theorem vtUrlErrs_nil_iff (t : Trigger) :
    vtUrlErrs t = [] ↔ (t.actiontype = some "http" → truthyStr t.url = true) := by
  unfold vtUrlErrs
  by_cases h : t.actiontype = some "http" ∧ ¬ truthyStr t.url = true <;> simp [h]

/-- The outputport requirement applies exactly to midi triggers. -/
theorem vtOutputportErrs_nil_iff (t : Trigger) :
    vtOutputportErrs t = [] ↔ (t.actiontype = some "midi" → truthyStr t.outputport = true) := by
  unfold vtOutputportErrs
  by_cases h : t.actiontype = some "midi" ∧ ¬ truthyStr t.outputport = true <;> simp [h]

/-- C2 counterexample: a cc trigger with no channel, no controller and
no value fields is accepted by validateTriggerObject — the claimed
per-command required-field requirements (channel, controller and value
for cc) are not imposed on triggers. -/
theorem validateTriggerObject_cc_cex :
    validateTriggerObject { midicommand := some "cc", actiontype := some "http",
                            url := some "http://example.com/hook" } =
      { valid := true, errors := [] } := by
  decide

/-- C2 (amended): validateTriggerObject requires only a recognized
midicommand and an actiontype of http or midi (http requiring a url,
midi requiring an outputport); the channel field (for the six
channel-voice commands) and the note field (for noteon/noteoff) are
range-checked only when present and not the wildcard "*" — no numeric
field is required, and controller, value and pitchbend fields are never
checked at all.  All errors are aggregated: validity is exactly the
conjunction of these checks. -/
theorem validateTriggerObject_valid_iff (t : Trigger) :
    (validateTriggerObject t).valid = true ↔
      ((∃ s, t.midicommand = some s ∧ VALID_MIDI_COMMANDS.contains (lowerStr s) = true)
        ∧ (∀ v, t.channel = some v → v ≠ .str "*" →
            (["noteon", "noteoff", "cc", "pc", "pressure", "pitchbend"].contains
              (lowerStr (t.midicommand.getD "")) = true →
              ∃ n, parseIntV10 v = some n ∧ 0 ≤ n ∧ n ≤ 15))
        ∧ (∀ v, t.note = some v → v ≠ .str "*" →
            (["noteon", "noteoff"].contains (lowerStr (t.midicommand.getD "")) = true →
              ∃ n, parseIntV10 v = some n ∧ 0 ≤ n ∧ n ≤ 127))
        ∧ (t.actiontype = some "http" ∨ t.actiontype = some "midi")
        ∧ (t.actiontype = some "http" → truthyStr t.url = true)
        ∧ (t.actiontype = some "midi" → truthyStr t.outputport = true)) := by
  have key : (validateTriggerObject t).valid = true ↔
      vtCommandErrs t = [] ∧ vtChannelErrs t = [] ∧ vtNoteErrs t = [] ∧
        vtActionErrs t = [] ∧ vtUrlErrs t = [] ∧ vtOutputportErrs t = [] := by
    unfold validateTriggerObject
    by_cases h : (triggerErrors t).length > 0
    · rw [if_pos h]
      unfold triggerErrors at h
      simp only [List.length_append] at h
      constructor
      · intro hv; exact Bool.noConfusion hv
      · intro hh
        rw [hh.1, hh.2.1, hh.2.2.1, hh.2.2.2.1, hh.2.2.2.2.1, hh.2.2.2.2.2] at h
        simp at h
    · rw [if_neg h]
      unfold triggerErrors at h
      simp only [List.length_append, gt_iff_lt, not_lt, Nat.le_zero] at h
      constructor
      · intro _
        refine ⟨?_, ?_, ?_, ?_, ?_, ?_⟩ <;> apply List.length_eq_zero.mp <;> omega
      · intro _; rfl
  rw [key, vtCommandErrs_nil_iff, vtChannelErrs_nil_iff, vtNoteErrs_nil_iff,
    vtActionErrs_nil_iff, vtUrlErrs_nil_iff, vtOutputportErrs_nil_iff]

/-- A concrete valid http trigger used to witness the amended C2. -/
def demoHttpTrigger : Trigger :=
  { midicommand := some "noteon", actiontype := some "http", url := some "u" }

/-- Witness for the amended C2: the equivalence instantiated at a
concrete valid http trigger. -/
theorem validateTriggerObject_valid_iff_witness :
    (validateTriggerObject demoHttpTrigger).valid = true := by
  rw [validateTriggerObject_valid_iff]
  refine ⟨⟨"noteon", rfl, by decide⟩, ?_, ?_, Or.inl rfl, fun _ => by decide, ?_⟩
  · intro v hv
    simp [demoHttpTrigger] at hv
  · intro v hv
    simp [demoHttpTrigger] at hv
  · intro h
    simp [demoHttpTrigger] at h
